import Mathlib

/-!
Shallow embedding of the gotel tracing wrappers.

The repository wires OpenTelemetry instrumentation onto Redis clients,
gRPC clients/servers and Gin HTTP handlers.  The embedding below models,
directly from the Go source:

* redis/tracing.go (package oteltracingredis): the traced client methods
  GetFromCache, SetToCache, DeleteFromCache and Ping, together with the
  recordErr helper;
* grpc/tracing.go (package grpc): NewClientWithTracing,
  InstrumentGRPCDialOptions, InstrumentGRPCServerOptions;
* middleware (GinMiddleware): the post-handler status classification;
* otelsetup (InitTracer): option building and the fatal exits.

External collaborators (the go-redis client, grpc.Dial, the otelgin
middleware, the OTLP exporter constructor) are modelled as inputs: the
outcome of the external call is a parameter of the embedded function.
Go `defer` runs on every exit path, panics included, so the embedded
wrappers emit their span-end event on the panic branch as well.
-/

namespace Gotel

/-- Span status codes from go.opentelemetry.io/otel/codes: `Unset`, `Ok`,
and `Error` carrying the description passed to SetStatus. -/
inductive SpanStatus where
  | unset : SpanStatus
  | ok : SpanStatus
  | error (description : String) : SpanStatus
deriving DecidableEq

/-- OpenTelemetry attribute values (the kinds this repository uses). -/
inductive AttrValue where
  | str (s : String) : AttrValue
  | int (i : Int) : AttrValue
  | boolean (b : Bool) : AttrValue
deriving DecidableEq

/-- One span as the wrappers observe and mutate it: its name, whether the
provider made it a recording span (sampler decision, external), its
attribute list, its status, and the list of messages recorded via
RecordError. -/
structure Span where
  name : String
  recording : Bool
  attrs : List (String × AttrValue)
  status : SpanStatus
  recordedErrors : List String
deriving DecidableEq

/-- `tracer.Start(ctx, name)`: a fresh span with the given name, no
attributes, status Unset, and nothing recorded. -/
def startSpan (name : String) (rec : Bool) : Span :=
  { name := name, recording := rec, attrs := [], status := SpanStatus.unset,
    recordedErrors := [] }

/-- go-redis error values as the wrapper distinguishes them: the
`redis.Nil` not-found sentinel, or any other error with its message. -/
inductive RedisError where
  | redisNil : RedisError
  | other (msg : String) : RedisError
deriving DecidableEq

/-- A Go `error` value in the redis wrapper: `none` is the nil error. -/
abbrev GoError := Option RedisError

/-- The string returned by the Error() method of a redis error value. -/
def RedisError.message : RedisError → String
  | RedisError.redisNil => "redis: nil"
  | RedisError.other msg => msg

/-- recordErr from redis/tracing.go:

  if err != nil and err != redis.Nil, then span.RecordError(err) and
  span.SetStatus(codes.Error, err.Error()); otherwise nothing. -/
def recordErr (span : Span) (err : GoError) : Span :=
  match err with
  | none => span
  | some e =>
    if e = RedisError.redisNil then span
    else
      { span with
        recordedErrors := span.recordedErrors ++ [e.message],
        status := SpanStatus.error e.message }

/-- Outcome of the underlying external call: a normal return carrying the
value the call produced, or a runtime panic propagating out of it. -/
inductive CallOutcome (ρ : Type) where
  | ret (val : ρ) : CallOutcome ρ
  | panicked (msg : String) : CallOutcome ρ
deriving DecidableEq

/-- Observable effects of one wrapper invocation: the names of the spans
it started and of the spans it ended, the final state of its span, and
the value it returns (or the panic it propagates) to the caller. -/
structure TracedRun (ρ : Type) where
  spanStarts : List String
  spanEnds : List String
  span : Span
  outcome : CallOutcome ρ
deriving DecidableEq

/-- Client.GetFromCache: starts a span named "Redis GET", defers
span.End(), runs c.client.Get(ctx, key).Scan(target) (its outcome is the
parameter `call`), passes the error to recordErr, and returns the error
unchanged.  On a panic of the wrapped call the deferred End still runs
and the panic propagates. -/
def GetFromCache {A : Type} (rec : Bool) (key : String) (target : A)
    (call : CallOutcome GoError) : TracedRun GoError :=
  let span := startSpan "Redis GET" rec
  match call with
  | CallOutcome.ret err =>
    { spanStarts := ["Redis GET"], spanEnds := ["Redis GET"],
      span := recordErr span err, outcome := CallOutcome.ret err }
  | CallOutcome.panicked m =>
    { spanStarts := ["Redis GET"], spanEnds := ["Redis GET"],
      span := span, outcome := CallOutcome.panicked m }

/-- Client.SetToCache: span "Redis SET", defer End, run
c.client.Set(ctx, key, value, expiration).Err(), recordErr, return the
error unchanged. -/
def SetToCache {V : Type} (rec : Bool) (key : String) (value : V)
    (expiration : Int) (call : CallOutcome GoError) : TracedRun GoError :=
  let span := startSpan "Redis SET" rec
  match call with
  | CallOutcome.ret err =>
    { spanStarts := ["Redis SET"], spanEnds := ["Redis SET"],
      span := recordErr span err, outcome := CallOutcome.ret err }
  | CallOutcome.panicked m =>
    { spanStarts := ["Redis SET"], spanEnds := ["Redis SET"],
      span := span, outcome := CallOutcome.panicked m }

/-- Client.DeleteFromCache: span "Redis DEL", defer End, run
c.client.Del(ctx, key).Err(), recordErr, return the error unchanged. -/
def DeleteFromCache (rec : Bool) (key : String)
    (call : CallOutcome GoError) : TracedRun GoError :=
  let span := startSpan "Redis DEL" rec
  match call with
  | CallOutcome.ret err =>
    { spanStarts := ["Redis DEL"], spanEnds := ["Redis DEL"],
      span := recordErr span err, outcome := CallOutcome.ret err }
  | CallOutcome.panicked m =>
    { spanStarts := ["Redis DEL"], spanEnds := ["Redis DEL"],
      span := span, outcome := CallOutcome.panicked m }

/-- A *redis.StatusCmd as the wrapper observes it: the value Err() yields. -/
structure StatusCmd where
  err : GoError
deriving DecidableEq

/-- Client.Ping: span "Redis PING", defer End, run c.client.Ping(ctx)
(yielding a StatusCmd), pass cmd.Err() to recordErr, and return the cmd
itself unchanged. -/
def Ping (rec : Bool) (call : CallOutcome StatusCmd) : TracedRun StatusCmd :=
  let span := startSpan "Redis PING" rec
  match call with
  | CallOutcome.ret cmd =>
    { spanStarts := ["Redis PING"], spanEnds := ["Redis PING"],
      span := recordErr span cmd.err, outcome := CallOutcome.ret cmd }
  | CallOutcome.panicked m =>
    { spanStarts := ["Redis PING"], spanEnds := ["Redis PING"],
      span := span, outcome := CallOutcome.panicked m }

/-- Entries of the net/http StatusText table for the codes this
development evaluates; every other code maps to the empty string exactly
as http.StatusText does for unknown codes. -/
def statusText (code : Nat) : String :=
  if code = 200 then "OK"
  else if code = 400 then "Bad Request"
  else if code = 404 then "Not Found"
  else if code = 500 then "Internal Server Error"
  else ""

/-- The span state right after the otelgin middleware `mw(c)` has run the
handler: otelgin started the span with the configured start options
(service.name and env attributes) and the configured name formatter
(method, space, full path); its status is whatever otelgin left, modelled
here as the fresh default Unset. -/
def ginSpanAfterHandler (serviceName method route : String) (rec : Bool) : Span :=
  { name := method ++ " " ++ route,
    recording := rec,
    attrs := [("service.name", AttrValue.str serviceName),
              ("env", AttrValue.str "production")],
    status := SpanStatus.unset,
    recordedErrors := [] }

/-- The handler returned by GinMiddleware, after mw(c): it reads the span
from the request context; if span.IsRecording() and the response writer
status is at least http.StatusBadRequest (400), it sets status Error with
the http status text and attaches the http.status_code attribute;
otherwise it touches nothing. -/
def GinMiddleware (serviceName method route : String) (rec : Bool)
    (writerStatus : Nat) : Span :=
  let span := ginSpanAfterHandler serviceName method route rec
  if span.recording ∧ 400 ≤ writerStatus then
    { span with
      status := SpanStatus.error (statusText writerStatus),
      attrs := span.attrs ++ [("http.status_code", AttrValue.int writerStatus)] }
  else span

/-- The two otelgrpc stats handlers the repository constructs. -/
inductive StatsHandler where
  | clientHandler : StatsHandler
  | serverHandler : StatsHandler
deriving DecidableEq

/-- grpc.DialOption values as this repository builds them; caller-supplied
options are opaque and carried by the `caller` constructor. -/
inductive DialOption where
  | withTransportCredentials (insecureCreds : Bool) : DialOption
  | withStatsHandler (h : StatsHandler) : DialOption
  | caller (tag : Nat) : DialOption
deriving DecidableEq

/-- grpc.ServerOption values as this repository builds them. -/
inductive ServerOption where
  | statsHandler (h : StatsHandler) : ServerOption
  | caller (tag : Nat) : ServerOption
deriving DecidableEq

/-- InstrumentGRPCDialOptions: newOpts starts empty, the otelgrpc client
stats-handler option is appended, then the caller options in order. -/
def InstrumentGRPCDialOptions (opts : List DialOption) : List DialOption :=
  let newOpts : List DialOption := []
  let newOpts := newOpts ++ [DialOption.withStatsHandler StatsHandler.clientHandler]
  newOpts ++ opts

/-- InstrumentGRPCServerOptions: newOpts starts empty, the otelgrpc server
stats-handler option is appended, then the caller options in order. -/
def InstrumentGRPCServerOptions (opts : List ServerOption) : List ServerOption :=
  let newOpts : List ServerOption := []
  let newOpts := newOpts ++ [ServerOption.statsHandler StatsHandler.serverHandler]
  newOpts ++ opts

/-- A *grpc.ClientConn, opaque to this repository. -/
structure Conn where
  id : Nat
deriving DecidableEq

/-- The dial options NewClientWithTracing builds before calling grpc.Dial:
insecure transport credentials and the otelgrpc client stats handler. -/
def clientDialOptions : List DialOption :=
  [DialOption.withTransportCredentials true,
   DialOption.withStatsHandler StatsHandler.clientHandler]

/-- NewClientWithTracing: builds clientDialOptions, calls
grpc.Dial(addr, dialOptions...) (external, supplied as `grpcDial`); on a
dial error it returns the zero value of the client type, a nil
connection and the error; on success it returns factory(conn), the
connection and a nil error. -/
def NewClientWithTracing {T : Type} [Inhabited T]
    (grpcDial : String → List DialOption → Except String Conn)
    (addr : String) (factory : Conn → T) : T × Option Conn × Option String :=
  match grpcDial addr clientDialOptions with
  | Except.error e => (default, none, some e)
  | Except.ok conn => (factory conn, some conn, none)

/-- otelsetup.Config. -/
structure Config where
  endpoint : String
  insecure : Bool
  serviceName : String

/-- otlptracegrpc options as InitTracer builds them. -/
inductive OtlpOption where
  | withEndpoint (e : String) : OtlpOption
  | withInsecure : OtlpOption
deriving DecidableEq

/-- The option list InitTracer builds: WithEndpoint when the configured
endpoint is nonempty, then WithInsecure when the flag is set. -/
def buildExporterOptions (cfg : Config) : List OtlpOption :=
  let options : List OtlpOption := []
  let options := if cfg.endpoint ≠ "" then options ++ [OtlpOption.withEndpoint cfg.endpoint]
                 else options
  let options := if cfg.insecure then options ++ [OtlpOption.withInsecure]
                 else options
  options

/-- Outcomes of the two fallible SDK constructor calls inside InitTracer,
external to this repository: otlptracegrpc.New over the built options,
and resource.New over the service name. -/
structure SdkEnv where
  exporterNew : List OtlpOption → Except String Unit
  resourceNew : String → Except String Unit

/-- What InitTracer does to its caller: `fatal msg` models log.Fatalf
(the process terminates, nothing is returned), `ready` models the normal
path that installs the provider and returns the shutdown closure. -/
inductive InitOutcome where
  | fatal (msg : String) : InitOutcome
  | ready : InitOutcome
deriving DecidableEq

/-- InitTracer from otelsetup: creates the exporter from the built
options, log.Fatalf on error; creates the resource, log.Fatalf on error;
otherwise installs the tracer provider and returns the shutdown
closure. -/
def InitTracer (cfg : Config) (env : SdkEnv) : InitOutcome :=
  match env.exporterNew (buildExporterOptions cfg) with
  | Except.error e => InitOutcome.fatal ("failed to create exporter: " ++ e)
  | Except.ok _ =>
    match env.resourceNew cfg.serviceName with
    | Except.error e => InitOutcome.fatal ("failed to create resource: " ++ e)
    | Except.ok _ => InitOutcome.ready

/-- C1: for every traced key-value operation (GetFromCache, SetToCache,
DeleteFromCache) and every outcome of the underlying call — a normal
return with any error value, or a panic — the wrapper hands its caller
exactly that outcome, never suppressing, wrapping or altering it. -/
theorem kv_wrappers_return_underlying_outcome (rec : Bool) (key value : String)
    (target : Unit) (expiration : Int) (call : CallOutcome GoError) :
    (GetFromCache rec key target call).outcome = call ∧
    (SetToCache rec key value expiration call).outcome = call ∧
    (DeleteFromCache rec key call).outcome = call := by
  refine ⟨?_, ?_, ?_⟩ <;> cases call <;> rfl

/-- C2: every invocation of GetFromCache, SetToCache, DeleteFromCache or
Ping starts exactly one span and ends exactly one span, on every code
path: normal return with any error value, and a panic of the wrapped
call (the deferred End still runs). -/
theorem every_invocation_one_span_started_and_ended (rec : Bool)
    (key value : String) (target : Unit) (expiration : Int)
    (call : CallOutcome GoError) (pingCall : CallOutcome StatusCmd) :
    ((GetFromCache rec key target call).spanStarts.length = 1 ∧
     (GetFromCache rec key target call).spanEnds.length = 1) ∧
    ((SetToCache rec key value expiration call).spanStarts.length = 1 ∧
     (SetToCache rec key value expiration call).spanEnds.length = 1) ∧
    ((DeleteFromCache rec key call).spanStarts.length = 1 ∧
     (DeleteFromCache rec key call).spanEnds.length = 1) ∧
    ((Ping rec pingCall).spanStarts.length = 1 ∧
     (Ping rec pingCall).spanEnds.length = 1) := by
  refine ⟨⟨?_, ?_⟩, ⟨?_, ?_⟩, ⟨?_, ?_⟩, ⟨?_, ?_⟩⟩ <;>
    first
      | cases call <;> rfl
      | cases pingCall <;> rfl

/-- C3: when the underlying call of a traced key-value operation returns
an error other than the redis.Nil sentinel, the span status is set to
Error carrying that error message, the message is recorded on the span,
and the very same error value is returned to the caller. -/
theorem non_nil_error_sets_span_error_and_propagates (rec : Bool)
    (key value : String) (target : Unit) (expiration : Int) (e : RedisError)
    (hne : e ≠ RedisError.redisNil) :
    ((GetFromCache rec key target (CallOutcome.ret (some e))).span.status
        = SpanStatus.error e.message ∧
     e.message ∈ (GetFromCache rec key target (CallOutcome.ret (some e))).span.recordedErrors ∧
     (GetFromCache rec key target (CallOutcome.ret (some e))).outcome
        = CallOutcome.ret (some e)) ∧
    ((SetToCache rec key value expiration (CallOutcome.ret (some e))).span.status
        = SpanStatus.error e.message ∧
     (SetToCache rec key value expiration (CallOutcome.ret (some e))).outcome
        = CallOutcome.ret (some e)) ∧
    ((DeleteFromCache rec key (CallOutcome.ret (some e))).span.status
        = SpanStatus.error e.message ∧
     (DeleteFromCache rec key (CallOutcome.ret (some e))).outcome
        = CallOutcome.ret (some e)) := by
  simp only [GetFromCache, SetToCache, DeleteFromCache, recordErr, if_neg hne]
  simp

/-- C3 witness: the theorem applied to the concrete error "boom". -/
theorem non_nil_error_sets_span_error_and_propagates_witness :
    (GetFromCache true "k" () (CallOutcome.ret (some (RedisError.other "boom")))).span.status
      = SpanStatus.error "boom" :=
  (non_nil_error_sets_span_error_and_propagates true "k" "v" () 0
    (RedisError.other "boom") (by decide)).1.1

/-- C4 counterexample: a lookup whose underlying call reports redis.Nil
leaves the span with an empty attribute list — in particular there is no
boolean found=false attribute, contrary to the claim.  (Status is indeed
not Error; that half of the claim holds.) -/
theorem nil_lookup_has_no_found_attribute :
    (GetFromCache true "k" () (CallOutcome.ret (some RedisError.redisNil))).span.attrs = [] ∧
    (GetFromCache true "k" () (CallOutcome.ret (some RedisError.redisNil))).span.status
      = SpanStatus.unset := ⟨rfl, rfl⟩

/-- C4 amended: when the underlying call of a key-value lookup reports
redis.Nil, the span status is not set to Error — recordErr skips the
sentinel entirely, so the span keeps its fresh state: no attributes at
all (hence no found=false marker) and nothing recorded. -/
theorem nil_lookup_leaves_span_fresh (rec : Bool) (key : String) (target : Unit) :
    (GetFromCache rec key target (CallOutcome.ret (some RedisError.redisNil))).span
      = startSpan "Redis GET" rec ∧
    (GetFromCache rec key target (CallOutcome.ret (some RedisError.redisNil))).span.status
      = SpanStatus.unset := by
  constructor <;> rfl

/-- C5 counterexample: a handler responding 200 through GinMiddleware
leaves the span status Unset, not Ok — the middleware never calls
SetStatus with Ok on any path. -/
theorem gin_200_leaves_status_unset_not_ok :
    (GinMiddleware "svc" "GET" "/ping" true 200).status = SpanStatus.unset ∧
    (GinMiddleware "svc" "GET" "/ping" true 200).status ≠ SpanStatus.ok := by
  constructor
  · rfl
  · decide

/-- C5 amended: for a recording span, a response status of at least 400
makes GinMiddleware set the span status to Error (with the http status
text as description) and attach the http.status_code attribute equal to
the response status; a handler responding 200 leaves the span status
Unset — a non-Error value, but not Ok. -/
theorem gin_status_classification (serviceName method route : String)
    (s : Nat) (h4 : 400 ≤ s) :
    ((GinMiddleware serviceName method route true s).status
        = SpanStatus.error (statusText s) ∧
     ("http.status_code", AttrValue.int (s : Int))
        ∈ (GinMiddleware serviceName method route true s).attrs) ∧
    (GinMiddleware serviceName method route true 200).status = SpanStatus.unset := by
  refine ⟨⟨?_, ?_⟩, ?_⟩
  · simp [GinMiddleware, ginSpanAfterHandler, h4]
  · simp [GinMiddleware, ginSpanAfterHandler, h4]
  · rfl

/-- C5 witness: the theorem applied at response status 500 for a concrete
service, method and route. -/
theorem gin_status_classification_witness :
    (GinMiddleware "svc" "GET" "/fail" true 500).status
      = SpanStatus.error "Internal Server Error" :=
  ((gin_status_classification "svc" "GET" "/fail" 500 (by decide)).1.1).trans
    (by simp [statusText])

/-- C6 counterexample: after GetFromCache on the concrete key "user:42"
with an absent key, the span attribute list is empty — the key was never
attached as an attribute, and the span carries no found=false marker,
contrary to the claim. -/
theorem key_never_attached_to_span :
    (GetFromCache true "user:42" () (CallOutcome.ret (some RedisError.redisNil))).span.attrs
      = [] ∧
    (GetFromCache true "user:42" () (CallOutcome.ret (some RedisError.redisNil))).span.name
      = "Redis GET" := ⟨rfl, rfl⟩

/-- C6 amended: every key-value operation opens its span named after the
store command before the underlying call runs, but attaches no
attributes whatsoever: the key is never recorded on the span, and for an
absent key the emitted span carries neither the key nor a found
marker. -/
theorem kv_spans_carry_only_operation_name (rec : Bool) (key value : String)
    (target : Unit) (expiration : Int) (call : CallOutcome GoError) :
    ((GetFromCache rec key target call).span.name = "Redis GET" ∧
     (GetFromCache rec key target call).span.attrs = []) ∧
    ((SetToCache rec key value expiration call).span.name = "Redis SET" ∧
     (SetToCache rec key value expiration call).span.attrs = []) ∧
    ((DeleteFromCache rec key call).span.name = "Redis DEL" ∧
     (DeleteFromCache rec key call).span.attrs = []) := by
  refine ⟨⟨?_, ?_⟩, ⟨?_, ?_⟩, ⟨?_, ?_⟩⟩ <;>
    cases call with
    | ret err =>
        first
          | rfl
          | cases err with
            | none => rfl
            | some e =>
                simp only [GetFromCache, SetToCache, DeleteFromCache, recordErr]
                split <;> rfl
    | panicked m => rfl

/-- C7 counterexample: with a concrete configuration whose exporter
construction fails, InitTracer hits log.Fatalf and terminates the
process — initialization does introduce a new failure mode, contrary to
the claim that it never aborts the caller. -/
theorem initTracer_aborts_when_exporter_creation_fails :
    InitTracer { endpoint := "localhost:4317", insecure := true, serviceName := "svc" }
      { exporterNew := fun _ => Except.error "connection refused",
        resourceNew := fun _ => Except.ok () }
      = InitOutcome.fatal "failed to create exporter: connection refused" := rfl

/-- C7 amended: the wrappers themselves degrade silently — a traced
operation returns exactly the underlying outcome whatever the recording
state of the tracing subsystem — but initialization does not: InitTracer
returns normally exactly when both SDK constructor calls succeed, and on
any constructor failure it terminates the process via log.Fatalf instead
of degrading. -/
theorem wrapping_degrades_silently_but_init_is_fatal (rec : Bool) (key : String)
    (target : Unit) (call : CallOutcome GoError) (cfg : Config) (env : SdkEnv) :
    (GetFromCache rec key target call).outcome = call ∧
    (GetFromCache rec key target call).outcome
      = (GetFromCache (!rec) key target call).outcome ∧
    (InitTracer cfg env = InitOutcome.ready ↔
      (∃ u, env.exporterNew (buildExporterOptions cfg) = Except.ok u) ∧
      (∃ v, env.resourceNew cfg.serviceName = Except.ok v)) := by
  refine ⟨?_, ?_, ?_⟩
  · cases call <;> rfl
  · cases call <;> rfl
  · unfold InitTracer
    cases hx : env.exporterNew (buildExporterOptions cfg) with
    | error e => simp [hx]
    | ok u =>
      cases hr : env.resourceNew cfg.serviceName with
      | error e => simp [hx, hr]
      | ok v => simp [hx, hr]

/-- C8: InstrumentGRPCDialOptions and InstrumentGRPCServerOptions return
lists of length len(opts)+1 whose first element is the otelgrpc stats
handler option (client and server respectively) and whose tail is
exactly the caller options in their original order. -/
theorem instrument_grpc_options_prepend_stats_handler
    (dialOpts : List DialOption) (serverOpts : List ServerOption) :
    (InstrumentGRPCDialOptions dialOpts).length = dialOpts.length + 1 ∧
    (InstrumentGRPCDialOptions dialOpts).head?
      = some (DialOption.withStatsHandler StatsHandler.clientHandler) ∧
    (InstrumentGRPCDialOptions dialOpts).tail = dialOpts ∧
    (InstrumentGRPCServerOptions serverOpts).length = serverOpts.length + 1 ∧
    (InstrumentGRPCServerOptions serverOpts).head?
      = some (ServerOption.statsHandler StatsHandler.serverHandler) ∧
    (InstrumentGRPCServerOptions serverOpts).tail = serverOpts := by
  simp [InstrumentGRPCDialOptions, InstrumentGRPCServerOptions, Nat.add_comm]

/-- C9: NewClientWithTracing returns, when dialing fails, the dial error
together with a nil connection and the zero value of the client type;
when dialing succeeds, it returns factory(conn), the connection and a
nil error. -/
theorem newClientWithTracing_dial_cases {T : Type} [Inhabited T]
    (grpcDial : String → List DialOption → Except String Conn)
    (addr : String) (factory : Conn → T) :
    (∀ e, grpcDial addr clientDialOptions = Except.error e →
      NewClientWithTracing grpcDial addr factory = (default, none, some e)) ∧
    (∀ conn, grpcDial addr clientDialOptions = Except.ok conn →
      NewClientWithTracing grpcDial addr factory = (factory conn, some conn, none)) := by
  constructor
  · intro e he
    unfold NewClientWithTracing
    rw [he]
  · intro conn hc
    unfold NewClientWithTracing
    rw [hc]

/-- C9 witness: the theorem applied to a concrete succeeding dial and to
a concrete failing dial, with a Nat-valued client factory. -/
theorem newClientWithTracing_dial_cases_witness :
    NewClientWithTracing (T := Nat) (fun _ _ => Except.ok ⟨7⟩) "addr"
        (fun c => c.id + 1) = (8, some ⟨7⟩, none) ∧
    NewClientWithTracing (T := Nat) (fun _ _ => Except.error "refused") "addr"
        (fun c => c.id + 1) = (0, none, some "refused") :=
  ⟨(newClientWithTracing_dial_cases (fun _ _ => Except.ok ⟨7⟩) "addr"
      (fun c => c.id + 1)).2 ⟨7⟩ rfl,
   (newClientWithTracing_dial_cases (fun _ _ => Except.error "refused") "addr"
      (fun c => c.id + 1)).1 "refused" rfl⟩

/-- C10: for an absent key, GetFromCache returns the redis.Nil sentinel —
a non-nil error — to its caller, while the span is left exactly as in
the success case (recordErr touches nothing for the sentinel): at the
public interface, not-found differs from success only by that sentinel
error value. -/
theorem getFromCache_not_found_surfaces_nil_sentinel (rec : Bool) (key : String)
    (target : Unit) :
    (GetFromCache rec key target (CallOutcome.ret (some RedisError.redisNil))).outcome
      = CallOutcome.ret (some RedisError.redisNil) ∧
    (some RedisError.redisNil : GoError) ≠ none ∧
    (GetFromCache rec key target (CallOutcome.ret (some RedisError.redisNil))).span
      = (GetFromCache rec key target (CallOutcome.ret none)).span ∧
    (GetFromCache rec key target (CallOutcome.ret none)).outcome
      = CallOutcome.ret none := by
  refine ⟨rfl, by decide, rfl, rfl⟩

end Gotel
